import Mathlib

/-!
Verification development for the FDA TPLC scraper
(`scraper.py` / `main.py`): a shallow embedding of the
navigation-and-extraction pipeline and proofs about it.

Pages are modelled by the data the locators read from them; Python
string builtins used by the code (`strip`, `replace`, `isdigit`,
`lstrip`, `startswith`, `in`, `int`) are modelled on `List Char`.
-/

/- ---------- Python string builtins ---------- -/

/-- Python `str.strip()`: remove leading and trailing whitespace. -/
def pyStrip (s : String) : String :=
  ⟨((s.data.dropWhile Char.isWhitespace).reverse.dropWhile Char.isWhitespace).reverse⟩

/-- Python `.replace(",", "")`: remove every comma. -/
def removeCommas (s : String) : String :=
  ⟨s.data.filter (fun c => c ≠ ',')⟩

/-- Python `str.isdigit()` restricted to ASCII text: non-empty and all
ASCII digits. This total model is exact only on ASCII input (see
`parseCountU_ascii_agrees`); the Unicode behaviour, under which
`isdigit` also accepts digit-type characters that `int` rejects, is
modelled by `pyIsdigitU` below. -/
def pyIsdigit (s : String) : Bool :=
  !s.data.isEmpty && s.data.all Char.isDigit

/-- Value of a digit string, most significant first. -/
def digitsToNat (l : List Char) : Nat :=
  l.foldl (fun n c => 10 * n + (c.toNat - 48)) 0

/-- Python `startswith`: list-level check that `pre` heads `s`. -/
def pyStartswith (s pre : String) : Bool :=
  pre.data.isPrefixOf s.data

/-- Helper for substring search: does `needle` occur inside the list? -/
def infixAux (needle : List Char) : List Char → Bool
  | [] => needle.isEmpty
  | c :: cs => needle.isPrefixOf (c :: cs) || infixAux needle cs

/-- Python `needle in hay` on strings. -/
def strContains (hay needle : String) : Bool :=
  infixAux needle.data hay.data

/-- Python `s.lstrip("../")`: removes every LEADING character belonging
to the character set of the argument, here the set containing the dot
and the slash (not the prefix string `../`). -/
def lstripDotSlash (s : String) : String :=
  ⟨s.data.dropWhile (fun c => c = '.' || c = '/')⟩

/- ---------- Data model (scraper.py) ---------- -/

/-- An `<a>` element inside a table cell: its inner text and the value
of its `href` attribute (`get_attribute` may return null). -/
structure LinkEl where
  text : String
  href : Option String
deriving Repr, DecidableEq

/-- A `<td>` cell: its inner text and its first contained link, if any
(`link_element.count() > 0` in the code). -/
structure Cell where
  text : String
  link : Option LinkEl
deriving Repr, DecidableEq

/-- A data row of a problem table is its list of `<td>` cells. -/
abbrev Row := List Cell

/-- One row of a problem table, as emitted by `_extract_problem_data`. -/
structure ProblemRecord where
  problem_name : String
  mdr_count : Option Nat
  event_count : Option Nat
  maude_link : Option String
deriving Repr, DecidableEq

/-- Base URL prepended to relative MAUDE links (scraper.py line 44). -/
def MAUDE_BASE : String := "https://www.accessdata.fda.gov/scripts/cdrh/cfdocs/"

/-- Base URL prepended to harvested detail hrefs (scraper.py line 133). -/
def TPLC_BASE : String := "https://www.accessdata.fda.gov/scripts/cdrh/cfdocs/cfTPLC/"

/-- Count parsing for columns 1 and 2 (scraper.py lines 35-40):
`inner_text().strip().replace(",", "")`, then `int(...)` when
`isdigit()` holds, else `None`. -/
def parseCount (cellText : String) : Option Nat :=
  let t := removeCommas (pyStrip cellText)
  if pyIsdigit t then some (digitsToNat t.data) else none

/-- MAUDE link rewriting (scraper.py lines 43-44):
`if maude_link and maude_link.startswith("../")`, then prepend the
base after `lstrip("../")`. -/
def rewriteMaudeLink : Option String → Option String
  | none => none
  | some s =>
    if !s.data.isEmpty && pyStartswith s "../" then
      some (MAUDE_BASE ++ lstripDotSlash s)
    else some s

/-- Per-row extraction (scraper.py lines 19-51): rows with fewer than 3
cells are skipped; the name and link come from the first cell's `<a>`
when present, else the raw cell text with a null link. -/
def extractRow : Row → Option ProblemRecord
  | c0 :: c1 :: c2 :: _ =>
    let nameLink : String × Option String :=
      match c0.link with
      | some le => (pyStrip le.text, le.href)
      | none => (pyStrip c0.text, none)
    some { problem_name := nameLink.1
         , mdr_count := parseCount c1.text
         , event_count := parseCount c2.text
         , maude_link := rewriteMaudeLink nameLink.2 }
  | _ => none

/-- `_extract_problem_data` (scraper.py lines 8-52), given the data rows
the sibling-row locator resolves to (`count() == 0` is the empty list). -/
def _extract_problem_data (rows : List Row) : List ProblemRecord :=
  if rows.length = 0 then [] else rows.filterMap extractRow

/- ---------- Pagination walk (scraper.py lines 117-148) ---------- -/

/-- One results page, as seen by the walk: the hrefs of the anchors
matching `a[href*='tplc.cfm?id=']` inside the results table when the
table locator resolves (`none` when its count is 0), and whether an
`a[title=Next]` control exists. -/
structure ResultsPage where
  table : Option (List (Option String))
  hasNext : Bool
deriving Repr, DecidableEq

/-- Link harvest from one results page (scraper.py lines 135-139):
for each href, `if href: all_links.append(base_url + href)`. -/
def harvestPage (hrefs : List (Option String)) : List String :=
  hrefs.filterMap (fun h =>
    match h with
    | some s => if !s.data.isEmpty then some (TPLC_BASE ++ s) else none
    | none => none)

/-- The `while True` walk (scraper.py lines 119-148): if the results
table does not resolve, `break`; otherwise harvest, then follow the
Next control if present, else `break`. -/
def collectLinks : List ResultsPage → List String
  | [] => []
  | p :: rest =>
    match p.table with
    | none => []
    | some hrefs =>
      if p.hasNext then harvestPage hrefs ++ collectLinks rest
      else harvestPage hrefs

/-- Number of result pages the walk actually visits. -/
def pagesVisited : List ResultsPage → Nat
  | [] => 0
  | p :: rest =>
    match p.table with
    | none => 1
    | some _ => if p.hasNext then 1 + pagesVisited rest else 1

/-- A walk of the shape claimed for pagination termination: at least one
page, every table resolves, every page but the last has a Next control
and the last has none. -/
def goodWalk : List ResultsPage → Bool
  | [] => false
  | [p] => p.table.isSome && !p.hasNext
  | p :: q :: rest => p.table.isSome && p.hasNext && goodWalk (q :: rest)

/- ---------- Detail scraping and the run ---------- -/

/-- A detail page, as seen by the scraper loop: whether the identity
marker `th:has-text('Device')` becomes visible within its timeout, the
text next to the exact `Device` header when that locator resolves, and
the data rows of the two problem tables. -/
structure DetailPage where
  markerAppears : Bool
  deviceName : Option String
  deviceProblemRows : List Row
  patientProblemRows : List Row
deriving Repr, DecidableEq

/-- One emitted device entry (scraper.py lines 173-177). -/
structure DeviceRecord where
  device_name : String
  device_problems : List ProblemRecord
  patient_problems : List ProblemRecord
deriving Repr, DecidableEq

/-- The output envelope: `message` is only present in the no-results
return (line 114); the normal return (line 179) carries no message. -/
structure ScrapeResult where
  status : String
  message : Option String
  data : List DeviceRecord
deriving Repr, DecidableEq

/-- The site as the run observes it: the `#eir-results-number` element's
text when present, the sequence of results pages the walk traverses,
and the detail page each URL navigates to. -/
structure Site where
  noResultsText : Option String
  resultsPages : List ResultsPage
  detail : String → DetailPage

/-- Record assembly for one detail page (scraper.py lines 162-177):
sentinel name when the locator count is 0, and the
`if device_problems or patient_problems` filter. -/
def mkRecord (d : DetailPage) : Option DeviceRecord :=
  let name := match d.deviceName with
    | some t => pyStrip t
    | none => "Unknown Device Name"
  let dps := _extract_problem_data d.deviceProblemRows
  let pps := _extract_problem_data d.patientProblemRows
  if !dps.isEmpty || !pps.isEmpty then
    some { device_name := name, device_problems := dps, patient_problems := pps }
  else none

/-- The detail loop (scraper.py lines 154-177). Returns the outcome
(records, or the propagated TimeoutError: the loop has no handler) and
the list of detail URLs actually navigated to, in order. -/
def scrapeDetails (site : Site) : List String → Except String (List DeviceRecord) × List String
  | [] => (Except.ok [], [])
  | link :: rest =>
    let d := site.detail link
    if d.markerAppears then
      let out := scrapeDetails site rest
      (match out.1 with
       | Except.ok tail =>
         match mkRecord d with
         | some r => Except.ok (r :: tail)
         | none => Except.ok tail
       | Except.error e => Except.error e,
       link :: out.2)
    else (Except.error "TimeoutError", [link])

/-- The no-results check (scraper.py lines 111-112):
`if no_results_element and "0 results" in no_results_element.inner_text()`. -/
def noResultsDetected (site : Site) : Bool :=
  match site.noResultsText with
  | some t => strContains t "0 results"
  | none => false

/-- Observable outcome of one run: the returned envelope or the
propagated exception, how many result pages the walk visited, and which
detail URLs were navigated to. -/
structure RunOutput where
  result : Except String ScrapeResult
  resultPagesVisited : Nat
  detailVisits : List String
deriving Repr

/-- `scrape_fda_website` (scraper.py lines 54-183) from the no-results
check on: short-circuit on zero results, else walk pagination and
scrape every harvested link. -/
def scrape_fda_website (site : Site) : RunOutput :=
  if noResultsDetected site then
    { result := Except.ok { status := "success"
                          , message := some "No results found for the given criteria."
                          , data := [] }
    , resultPagesVisited := 0
    , detailVisits := [] }
  else
    let links := collectLinks site.resultsPages
    let out := scrapeDetails site links
    { result := match out.1 with
        | Except.ok data => Except.ok { status := "success", message := none, data := data }
        | Except.error e => Except.error e
    , resultPagesVisited := pagesVisited site.resultsPages
    , detailVisits := out.2 }

/- ---------- Browser-session lifecycle (scraper.py lines 59-64, 181-183) ---------- -/

/-- The ways one run can terminate, following the control structure of
`scrape_fda_website`: the second `launch` raising, `new_page` or
`stealth_sync` raising (these sit between the launches and the `try`),
the search-input wait raising inside the `try`, a detail-page wait
raising inside the `try`, the no-results return, and the normal return. -/
inductive ExitPath where
  | secondLaunchRaises
  | pageSetupRaises
  | searchInputRaises
  | detailTimeoutRaises
  | noResultsReturn
  | normalReturn
deriving Repr, DecidableEq

/-- Browser bookkeeping: which browsers this run launched, and which
are still running. -/
structure BrowserState where
  launched : List Nat
  openBs : List Nat
deriving Repr, DecidableEq

/-- `p.chromium.launch(...)`: a new browser, launched and running. -/
def launchB (s : BrowserState) (b : Nat) : BrowserState :=
  ⟨s.launched ++ [b], s.openBs ++ [b]⟩

/-- `browser.close()` in the `finally` block (line 183). -/
def closeB (s : BrowserState) (b : Nat) : BrowserState :=
  ⟨s.launched, s.openBs.erase b⟩

/-- Exit of the `with sync_playwright() as p` block: stopping the
driver terminates every browser this Playwright instance launched. -/
def stopPlaywright (s : BrowserState) : BrowserState :=
  ⟨s.launched, s.openBs.filter (fun b => !s.launched.contains b)⟩

/-- The lifecycle skeleton of one run (scraper.py lines 59-64 and
181-183): launch browser 1 (line 60), rebind and launch browser 2
(line 61), set up the page, run the `try` body; the `finally` closes
the bound browser (browser 2) whenever the `try` was entered, and the
`with`-block exit stops Playwright on every path. -/
def runLifecycle (ep : ExitPath) : BrowserState :=
  let s1 := launchB ⟨[], []⟩ 1
  match ep with
  | .secondLaunchRaises => stopPlaywright s1
  | _ =>
    let s2 := launchB s1 2
    match ep with
    | .pageSetupRaises => stopPlaywright s2
    | _ => stopPlaywright (closeB s2 2)

/- ---------- Concrete fixtures ---------- -/

/-- A detail page whose device-problems table has one full row. -/
def exDetailGood : DetailPage :=
  { markerAppears := true
  , deviceName := some "Infusion Pump"
  , deviceProblemRows :=
      [[ { text := "", link := some { text := "Break", href := some "../cfMAUDE/res.cfm?id=7" } }
       , { text := "1,234", link := none }
       , { text := "n/a", link := none } ]]
  , patientProblemRows := [] }

/-- The problem record `exDetailGood` yields. -/
def exProblem : ProblemRecord :=
  { problem_name := "Break"
  , mdr_count := some 1234
  , event_count := none
  , maude_link := some (MAUDE_BASE ++ "cfMAUDE/res.cfm?id=7") }

/-- The device record `exDetailGood` yields. -/
def exRecord : DeviceRecord :=
  { device_name := "Infusion Pump"
  , device_problems := [exProblem]
  , patient_problems := [] }

/-- A detail page whose identity marker never appears (wait times out). -/
def exDetailTimeout : DetailPage :=
  { markerAppears := false
  , deviceName := none
  , deviceProblemRows := []
  , patientProblemRows := [] }

/-- Two result pages carrying the same detail href; the first has a
Next control. -/
def dupPages : List ResultsPage :=
  [ { table := some [some "tplc.cfm?id=1"], hasNext := true }
  , { table := some [some "tplc.cfm?id=1"], hasNext := false } ]

/-- Site for the dedup counterexample: both result pages list the same
device, and its detail page passes the problems filter. -/
def dupSite : Site :=
  { noResultsText := none
  , resultsPages := dupPages
  , detail := fun _ => exDetailGood }

/-- Site for the timeout counterexample: two harvested links, the first
detail page times out. -/
def timeoutSite : Site :=
  { noResultsText := none
  , resultsPages := [ { table := some [some "tplc.cfm?id=1", some "tplc.cfm?id=2"], hasNext := false } ]
  , detail := fun url => if url = TPLC_BASE ++ "tplc.cfm?id=1" then exDetailTimeout else exDetailGood }

/-- Walk for the missing-table counterexample: the first page's table
fails to resolve although a Next control exists; the second page holds
a harvestable link. -/
def brokenTablePages : List ResultsPage :=
  [ { table := none, hasNext := true }
  , { table := some [some "tplc.cfm?id=1"], hasNext := false } ]

/-- Site whose results counter reports zero results. -/
def zeroResultsSite : Site :=
  { noResultsText := some "0 results"
  , resultsPages := [ { table := some [some "tplc.cfm?id=1"], hasNext := false } ]
  , detail := fun _ => exDetailGood }

/-- A three-page walk of the shape claimed for pagination termination. -/
def threePages : List ResultsPage :=
  [ { table := some [some "tplc.cfm?id=1"], hasNext := true }
  , { table := some [], hasNext := true }
  , { table := some [some "tplc.cfm?id=2"], hasNext := false } ]

/-- Site with a single detail link whose page passes the filter. -/
def oneGoodSite : Site :=
  { noResultsText := some "17 results"
  , resultsPages := [ { table := some [some "tplc.cfm?id=1"], hasNext := false } ]
  , detail := fun _ => exDetailGood }

/-- A results page whose only href is already an absolute URL. -/
def absoluteHrefPage : ResultsPage :=
  { table := some [some "https://elsewhere.example/detail?id=3"], hasNext := false }

/-- Rewriting as the spec words it, for comparison with the code:
the fixed base path concatenated with the remainder after the
parent-path prefix `../`; every other link form unchanged. -/
def specRewriteLink (l : String) : String :=
  if pyStartswith l "../" then MAUDE_BASE ++ ⟨l.data.drop 3⟩ else l

/-- First cell of the fixture problem row (name with link). -/
def exCellName : Cell :=
  { text := "", link := some { text := "Break", href := some "../cfMAUDE/res.cfm?id=7" } }

/-- Second cell of the fixture problem row (MDR count). -/
def exCellMdr : Cell := { text := "1,234", link := none }

/-- Third cell of the fixture problem row (event count, non-numeric). -/
def exCellEvent : Cell := { text := "n/a", link := none }

/- ---------- Unicode fragment of isdigit / int ---------- -/

/-- Decimal value of a character as Python `int` accepts it (Unicode
category Nd). Faithful fragment: the ASCII digits and the Arabic-Indic
digits U+0660 to U+0669; the full Nd table is larger but behaves like
the Arabic-Indic range here. -/
def pyDigitVal (c : Char) : Option Nat :=
  if c.isDigit then some (c.toNat - 48)
  else if 0x660 ≤ c.toNat && c.toNat ≤ 0x669 then some (c.toNat - 0x660)
  else none

/-- Digit-type characters that are NOT decimal digits: Python `isdigit`
is true for them, yet `int` raises ValueError on them. Faithful
fragment: superscript two, three, one (U+00B2, U+00B3, U+00B9),
superscript zero and four to nine (U+2070, U+2074 to U+2079), and the
subscript digits U+2080 to U+2089. -/
def isDigitNotDecimal (c : Char) : Bool :=
  c.toNat = 0xB2 || c.toNat = 0xB3 || c.toNat = 0xB9 || c.toNat = 0x2070 ||
    (0x2074 ≤ c.toNat && c.toNat ≤ 0x2079) ||
      (0x2080 ≤ c.toNat && c.toNat ≤ 0x2089)

/-- Python `str.isdigit()` on the Unicode fragment: non-empty, and
every character is either a decimal digit or a digit-type
non-decimal character. -/
def pyIsdigitU (s : String) : Bool :=
  !s.data.isEmpty && s.data.all (fun c => (pyDigitVal c).isSome || isDigitNotDecimal c)

/-- Fold step accumulating the decimal value of a digit list; any
character without a decimal value poisons the result. -/
def decStep (acc : Option Nat) (c : Char) : Option Nat :=
  match acc, pyDigitVal c with
  | some n, some d => some (10 * n + d)
  | _, _ => none

/-- Decimal value of a character list, if every character is a decimal
digit. -/
def decDigitsVal (l : List Char) : Option Nat :=
  l.foldl decStep (some 0)

/-- Python `int(s)` on strings containing only digit-type characters
(the only shape reachable behind an `isdigit` guard, which excludes
signs and whitespace): the decimal value when every character is a
decimal digit, `none` — a raised ValueError — otherwise. -/
def pyIntNatU (s : String) : Option Nat :=
  if s.data.isEmpty then none else decDigitsVal s.data

/-- The count parse of scraper.py lines 35-36 and 39-40 with `isdigit`
and `int` modelled on the Unicode fragment:
`int(text) if text.isdigit() else None`, where the guarded `int` call
raises ValueError when `isdigit` was satisfied through a non-decimal
digit-type character. -/
def parseCountU (cellText : String) : Except String (Option Nat) :=
  let t := removeCommas (pyStrip cellText)
  if pyIsdigitU t then
    match pyIntNatU t with
    | some n => Except.ok (some n)
    | none => Except.error "ValueError"
  else Except.ok none

/- ---------- Helper lemmas ---------- -/

/-- A string with the prefix `../` has non-empty data. -/
theorem pyStartswith_dotdot_ne_nil (l : String) (h : pyStartswith l "../" = true) :
    l.data.isEmpty = false := by
  cases h' : l.data with
  | nil =>
    unfold pyStartswith at h
    rw [h'] at h
    exact absurd h (by decide)
  | cons c cs => rfl

/-- `parseCount` succeeds exactly on cleaned digit strings, returning
their value. -/
theorem parseCount_some_iff (s : String) (n : Nat) :
    parseCount s = some n ↔
      pyIsdigit (removeCommas (pyStrip s)) = true ∧
        n = digitsToNat (removeCommas (pyStrip s)).data := by
  unfold parseCount
  by_cases hc : pyIsdigit (removeCommas (pyStrip s)) = true <;> simp [hc, eq_comm]

/-- On a list of ASCII digits, the poisoning decimal fold agrees with
the plain digits fold. -/
theorem decDigitsVal_of_ascii (l : List Char) (acc : Nat)
    (h : ∀ c ∈ l, c.isDigit = true) :
    l.foldl decStep (some acc) =
      some (l.foldl (fun n c => 10 * n + (c.toNat - 48)) acc) := by
  induction l generalizing acc with
  | nil => rfl
  | cons a as ih =>
    have ha : a.isDigit = true := h a (List.mem_cons_self a as)
    have hval : pyDigitVal a = some (a.toNat - 48) := by
      simp [pyDigitVal, ha]
    simp only [List.foldl_cons]
    rw [show decStep (some acc) a = some (10 * acc + (a.toNat - 48)) by
      simp [decStep, hval]]
    exact ih (10 * acc + (a.toNat - 48)) (fun c hc => h c (List.mem_cons_of_mem a hc))

/-- On an ASCII character, the Unicode digit classification collapses
to the ASCII one: the non-decimal digit-type characters and the
non-ASCII decimal digits all lie above code point 127. -/
theorem digit_classes_ascii (c : Char) (h : c.toNat < 128) :
    ((pyDigitVal c).isSome || isDigitNotDecimal c) = c.isDigit := by
  have hnd : isDigitNotDecimal c = false := by
    simp only [isDigitNotDecimal, Bool.or_eq_false_iff, Bool.and_eq_false_iff,
      decide_eq_false_iff_not]
    omega
  cases hd : c.isDigit with
  | true => simp [pyDigitVal, hd, hnd]
  | false =>
    have harab : (0x660 ≤ c.toNat && c.toNat ≤ 0x669) = false := by
      simp only [Bool.and_eq_false_iff, decide_eq_false_iff_not]
      omega
    simp [pyDigitVal, hd, hnd, harab]

/-- On text whose cleaned form is ASCII, the fallible Unicode-fragment
parse agrees with the total ASCII parse: no ValueError is reachable
and the values coincide. -/
theorem parseCountU_ascii_agrees (s : String)
    (h : ∀ c ∈ (removeCommas (pyStrip s)).data, c.toNat < 128) :
    parseCountU s = Except.ok (parseCount s) := by
  have hall : ∀ (l : List Char), (∀ c ∈ l, c.toNat < 128) →
      l.all (fun c => (pyDigitVal c).isSome || isDigitNotDecimal c) = l.all Char.isDigit := by
    intro l hl
    induction l with
    | nil => rfl
    | cons a as ih =>
      simp only [List.all_cons, digit_classes_ascii a (hl a (List.mem_cons_self a as))]
      rw [ih (fun c hc => hl c (List.mem_cons_of_mem a hc))]
  have hig : pyIsdigitU (removeCommas (pyStrip s)) = pyIsdigit (removeCommas (pyStrip s)) := by
    unfold pyIsdigitU pyIsdigit
    rw [hall (removeCommas (pyStrip s)).data h]
  cases hd : pyIsdigit (removeCommas (pyStrip s)) with
  | false =>
    simp only [parseCountU, parseCount]
    rw [hig, hd]
    simp
  | true =>
    have hu : (!(removeCommas (pyStrip s)).data.isEmpty &&
        (removeCommas (pyStrip s)).data.all Char.isDigit) = true := hd
    rw [Bool.and_eq_true] at hu
    have hdigits : ∀ c ∈ (removeCommas (pyStrip s)).data, c.isDigit = true :=
      fun c hc => List.all_eq_true.mp hu.2 c hc
    have hne : (removeCommas (pyStrip s)).data.isEmpty = false := by
      simpa using hu.1
    simp only [parseCountU, parseCount]
    rw [hig, hd]
    simp only [if_true]
    unfold pyIntNatU
    rw [hne]
    simp only [Bool.false_eq_true, if_false]
    unfold decDigitsVal digitsToNat
    rw [decDigitsVal_of_ascii (removeCommas (pyStrip s)).data 0 hdigits]

/-- Membership in a page harvest means the URL is the base followed by
some href. -/
theorem mem_harvestPage (hrefs : List (Option String)) (url : String)
    (h : url ∈ harvestPage hrefs) : ∃ href : String, url = TPLC_BASE ++ href := by
  unfold harvestPage at h
  rw [List.mem_filterMap] at h
  obtain ⟨a, _, ha⟩ := h
  cases a with
  | none => simp at ha
  | some s =>
    have ha' : (if (!s.data.isEmpty) = true then some (TPLC_BASE ++ s) else none) = some url := ha
    split at ha'
    · exact ⟨s, (Option.some.inj ha').symm⟩
    · simp at ha'

/-- The emptiness test in `mkRecord` in propositional form. -/
theorem mkRecord_isSome (d : DetailPage) :
    (mkRecord d).isSome = true ↔
      ¬(_extract_problem_data d.deviceProblemRows = [] ∧
        _extract_problem_data d.patientProblemRows = []) := by
  by_cases hd : _extract_problem_data d.deviceProblemRows = [] <;>
    by_cases hp : _extract_problem_data d.patientProblemRows = [] <;>
      simp [mkRecord, hd, hp]

/-- When every harvested link's detail page shows its marker, the
detail loop succeeds and keeps exactly the pages passing the filter,
visiting every link in order. -/
theorem scrapeDetails_all_ok (site : Site) (links : List String)
    (h : ∀ l ∈ links, (site.detail l).markerAppears = true) :
    scrapeDetails site links =
      (Except.ok (links.filterMap (fun l => mkRecord (site.detail l))), links) := by
  induction links with
  | nil => rfl
  | cons link rest ih =>
    have hm : (site.detail link).markerAppears = true := h link (List.mem_cons_self link rest)
    have hrest : ∀ l ∈ rest, (site.detail l).markerAppears = true :=
      fun l hl => h l (List.mem_cons_of_mem link hl)
    simp only [scrapeDetails, hm, if_true, ih hrest, List.filterMap_cons]
    cases hr : mkRecord (site.detail link) <;> simp [hr]

/- ---------- Claim theorems ---------- -/

/-- Claim C3, counterexample: on a walk whose first page's results
table fails to resolve but exposes a Next control, the code collects
nothing at all and stops after one page, although the second page holds
a harvestable link — the walk does not continue as claimed. -/
theorem missing_table_cex :
    collectLinks brokenTablePages = [] ∧
      pagesVisited brokenTablePages = 1 ∧
        harvestPage [some "tplc.cfm?id=1"] ≠ [] := by
  refine ⟨rfl, rfl, ?_⟩
  decide

/-- Claim C3, amended: if the results table fails to resolve on the
current page, the walk terminates immediately via `break` — that page
and every subsequent page contribute zero links, and no further page is
visited. -/
theorem missing_table_breaks_walk (b : Bool) (rest : List ResultsPage) :
    collectLinks ({ table := none, hasNext := b } :: rest) = [] ∧
      pagesVisited ({ table := none, hasNext := b } :: rest) = 1 :=
  ⟨rfl, rfl⟩

/-- Claim C4: on every exit path of a run — normal return, no-results
return, a raise before the `try`, a raise inside the `try` — every
browser the run launched is closed by the time the run terminates (the
`finally` closes the bound browser, and leaving the `with
sync_playwright()` block stops the driver and with it every launched
browser). -/
theorem browsers_closed_on_all_paths (ep : ExitPath) :
    (runLifecycle ep).openBs = [] := by
  cases ep <;> rfl

/-- Claim C5: whenever the results-count indicator is present and
reports zero results, the run returns the success envelope with the
explanatory message and empty data, visits zero result pages in the
pagination walk, and navigates to no detail page. -/
theorem zero_results_envelope (site : Site) (h : noResultsDetected site = true) :
    scrape_fda_website site =
      { result := Except.ok { status := "success"
                            , message := some "No results found for the given criteria."
                            , data := [] }
      , resultPagesVisited := 0
      , detailVisits := [] } := by
  simp [scrape_fda_website, h]

/-- Witness for C5 at a concrete site whose indicator reads `0 results`. -/
theorem zero_results_envelope_witness :
    scrape_fda_website zeroResultsSite =
      { result := Except.ok { status := "success"
                            , message := some "No results found for the given criteria."
                            , data := [] }
      , resultPagesVisited := 0
      , detailVisits := [] } :=
  zero_results_envelope zeroResultsSite (by decide)

/-- Claim C1, counterexample: with the same detail href on two result
pages, the harvested accumulator holds the same absolute URL twice (no
dedup check exists), and the run emits two identical DeviceRecords for
that one link. -/
theorem dedup_claim_cex :
    ¬ (collectLinks dupPages).Nodup ∧
      (scrape_fda_website dupSite).result =
        Except.ok { status := "success", message := none, data := [exRecord, exRecord] } := by
  constructor
  · decide
  · rfl

/-- Claim C1, amended: the harvest appends every page's links
unconditionally — no membership check is made against the accumulator —
so a URL present on several visited result pages appears once per
occurrence and is scraped once per occurrence. -/
theorem links_append_unconditional (hr : List (Option String)) (rest : List ResultsPage) :
    collectLinks ({ table := some hr, hasNext := true } :: rest) =
        harvestPage hr ++ collectLinks rest ∧
      collectLinks [{ table := some hr, hasNext := false }] = harvestPage hr :=
  ⟨rfl, rfl⟩

/-- Claim C2, counterexample: with two harvested links whose first
detail page's identity marker never appears, the run raises
TimeoutError (no success envelope) and never visits the second link —
the device is not skipped and scraping does not continue. -/
theorem timeout_abort_cex :
    (scrape_fda_website timeoutSite).result = Except.error "TimeoutError" ∧
      (scrape_fda_website timeoutSite).detailVisits = [TPLC_BASE ++ "tplc.cfm?id=1"] :=
  ⟨rfl, rfl⟩

/-- Claim C2, amended: the detail loop has no exception handler — the
first harvested link whose identity-marker wait times out makes the
whole run fail with the propagated TimeoutError, no warning-and-skip
happens, and the remaining links are never visited. -/
theorem timeout_aborts_run (site : Site) (link : String) (rest : List String)
    (h1 : noResultsDetected site = false)
    (h2 : collectLinks site.resultsPages = link :: rest)
    (h3 : (site.detail link).markerAppears = false) :
    (scrape_fda_website site).result = Except.error "TimeoutError" ∧
      (scrape_fda_website site).detailVisits = [link] := by
  simp only [scrape_fda_website, h1, Bool.false_eq_true, if_false, h2]
  simp [scrapeDetails, h3]

/-- Witness for the amended C2 at a concrete two-link site. -/
theorem timeout_aborts_run_witness :
    (scrape_fda_website timeoutSite).result = Except.error "TimeoutError" ∧
      (scrape_fda_website timeoutSite).detailVisits = [TPLC_BASE ++ "tplc.cfm?id=1"] :=
  timeout_aborts_run timeoutSite (TPLC_BASE ++ "tplc.cfm?id=1")
    [TPLC_BASE ++ "tplc.cfm?id=2"] (by decide) (by decide) (by decide)

/-- Claim C6: on a run that reaches the detail loop and completes, the
final data is exactly the per-link records the filter keeps, and a
detail page yields a record precisely when at least one of its two
extracted problem lists is non-empty. -/
theorem filter_iff_problems (site : Site)
    (h1 : noResultsDetected site = false)
    (h2 : ∀ l ∈ collectLinks site.resultsPages, (site.detail l).markerAppears = true) :
    (scrape_fda_website site).result =
        Except.ok { status := "success", message := none
                  , data := (collectLinks site.resultsPages).filterMap
                      (fun l => mkRecord (site.detail l)) } ∧
      ∀ d : DetailPage, (mkRecord d).isSome = true ↔
        ¬(_extract_problem_data d.deviceProblemRows = [] ∧
          _extract_problem_data d.patientProblemRows = []) := by
  constructor
  · simp only [scrape_fda_website, h1, Bool.false_eq_true, if_false,
      scrapeDetails_all_ok site (collectLinks site.resultsPages) h2]
  · exact mkRecord_isSome

/-- Witness for C6 at a one-link site whose page has one problem row. -/
theorem filter_iff_problems_witness :
    (scrape_fda_website oneGoodSite).result =
      Except.ok { status := "success", message := none
                , data := (collectLinks oneGoodSite.resultsPages).filterMap
                    (fun l => mkRecord (oneGoodSite.detail l)) } :=
  (filter_iff_problems oneGoodSite (by decide) (by decide)).1

/-- Claim C7 (code bug): a count cell holding the superscript-two
character passes the Python `isdigit` guard, yet `int` has no decimal
value for it and raises ValueError — so the guarded parse of scraper.py
lines 35-36 and 39-40 raises instead of yielding null, and with no
handler anywhere the whole run aborts; an ordinary comma-separated
numeric cell, an Arabic-Indic digit cell, and a plainly non-numeric
cell behave as the claim states. -/
theorem superscript_cell_raises :
    pyIsdigitU "²" = true ∧
      pyIntNatU "²" = none ∧
        parseCountU "²" = Except.error "ValueError" ∧
          parseCountU "1,234" = Except.ok (some 1234) ∧
            parseCountU "٣" = Except.ok (some 3) ∧
              parseCountU "n/a" = Except.ok none := by
  exact ⟨by decide, by decide, rfl, rfl, rfl, rfl⟩

/-- Claim C8, counterexample: for the row link `../.detail?id=9` the
code does not produce the base path plus the remainder after `../`
(which would keep the leading dot): `lstrip("../")` strips characters,
so the emitted URL is the base plus `detail?id=9`, and the two differ. -/
theorem link_rewrite_cex :
    rewriteMaudeLink (some "../.detail?id=9") ≠ some (specRewriteLink "../.detail?id=9") ∧
      rewriteMaudeLink (some "../.detail?id=9") = some (MAUDE_BASE ++ "detail?id=9") := by
  constructor
  · decide
  · rfl

/-- Claim C8, amended: a link beginning with `../` is rewritten to the
fixed base path plus the link with ALL leading dot or slash characters
removed (Python `lstrip` set semantics); when the character after `../`
is neither a dot nor a slash this equals the remainder after the
prefix, as in the example `../detail?id=9`; every other link form
passes through unchanged. -/
theorem link_rewrite_amended (l : String) :
    (pyStartswith l "../" = true →
        rewriteMaudeLink (some l) = some (MAUDE_BASE ++ lstripDotSlash l)) ∧
      (pyStartswith l "../" = false → rewriteMaudeLink (some l) = some l) ∧
        (∀ (c : Char) (cs : List Char), ¬ c = '.' → ¬ c = '/' →
          lstripDotSlash ("../" ++ (⟨c :: cs⟩ : String)) = ⟨c :: cs⟩) := by
  refine ⟨?_, ?_, ?_⟩
  · intro h
    have hne := pyStartswith_dotdot_ne_nil l h
    simp [rewriteMaudeLink, h, hne]
  · intro h
    simp [rewriteMaudeLink, h]
  · intro c cs hc hs
    have hdata : ("../" ++ (⟨c :: cs⟩ : String)).data = '.' :: '.' :: '/' :: c :: cs := rfl
    unfold lstripDotSlash
    rw [hdata]
    simp [List.dropWhile_cons, hc, hs]

/-- Witness for the amended C8: the documented example rewrites to the
base plus its remainder, and an absolute URL passes through unchanged. -/
theorem link_rewrite_amended_witness :
    rewriteMaudeLink (some "../detail?id=9") =
        some (MAUDE_BASE ++ lstripDotSlash "../detail?id=9") ∧
      rewriteMaudeLink (some "https://elsewhere.example/x") =
          some "https://elsewhere.example/x" ∧
        lstripDotSlash ("../" ++ (⟨'d' :: "etail?id=9".data⟩ : String)) =
          (⟨'d' :: "etail?id=9".data⟩ : String) :=
  ⟨(link_rewrite_amended "../detail?id=9").1 (by decide),
   (link_rewrite_amended "https://elsewhere.example/x").2.1 (by decide),
   (link_rewrite_amended "x").2.2 'd' "etail?id=9".data (by decide) (by decide)⟩

/-- Claim C9: on a walk of N pages whose tables all resolve, where
every page but the last has a Next control and the last has none, the
loop visits exactly the N pages and then terminates. -/
theorem pagination_visits_each_page (pages : List ResultsPage)
    (h : goodWalk pages = true) : pagesVisited pages = pages.length := by
  induction pages with
  | nil => simp [goodWalk] at h
  | cons p rest ih =>
    cases rest with
    | nil =>
      simp only [goodWalk, Bool.and_eq_true, Bool.not_eq_true'] at h
      obtain ⟨h1, h2⟩ := h
      obtain ⟨hr, hhr⟩ := Option.isSome_iff_exists.mp h1
      simp [pagesVisited, hhr, h2]
    | cons q rest2 =>
      simp only [goodWalk, Bool.and_eq_true] at h
      obtain ⟨⟨h1, h2⟩, h3⟩ := h
      obtain ⟨hr, hhr⟩ := Option.isSome_iff_exists.mp h1
      have hih := ih (by simpa [goodWalk] using h3)
      generalize hq : q :: rest2 = qs at hih ⊢
      simp only [pagesVisited, hhr, h2, if_true, List.length_cons]
      rw [hih]
      omega

/-- Witness for C9 on a concrete three-page walk. -/
theorem pagination_visits_each_page_witness :
    goodWalk threePages = true ∧ pagesVisited threePages = threePages.length :=
  ⟨by decide, pagination_visits_each_page threePages (by decide)⟩

/-- Claim C10: every URL the walk accumulates is the fixed base URL
concatenated with some raw href — unconditionally, with no check that
the href is relative — so every harvested link carries the base as a
prefix, even when the href was already an absolute URL. -/
theorem harvested_link_has_base (pages : List ResultsPage) (url : String)
    (h : url ∈ collectLinks pages) : ∃ href : String, url = TPLC_BASE ++ href := by
  induction pages with
  | nil => simp [collectLinks] at h
  | cons p rest ih =>
    cases hp : p.table with
    | none =>
      unfold collectLinks at h
      rw [hp] at h
      simp at h
    | some hrefs =>
      unfold collectLinks at h
      rw [hp] at h
      cases hn : p.hasNext with
      | true =>
        rw [hn] at h
        simp only [if_true] at h
        rcases List.mem_append.mp h with hmem | hmem
        · exact mem_harvestPage hrefs url hmem
        · exact ih hmem
      | false =>
        rw [hn] at h
        simp only [Bool.false_eq_true, if_false] at h
        exact mem_harvestPage hrefs url h

/-- Witness for C10: an href that is already an absolute URL is still
prefixed with the base. -/
theorem harvested_link_has_base_witness :
    ∃ href : String,
      TPLC_BASE ++ "https://elsewhere.example/detail?id=3" = TPLC_BASE ++ href :=
  harvested_link_has_base [absoluteHrefPage]
    (TPLC_BASE ++ "https://elsewhere.example/detail?id=3") (by decide)
